import Mathlib

/-!
Verification of the distributed-training orchestration layer
(tf_container/trainer.py and tf_container/train.py).

The Python sources are shallowly embedded below:
  - Python str is modelled by String (a structure wrapping List Char),
    string slicing and formatting by explicit functions on the data list;
  - Python dict (insertion ordered, string keys) is modelled by an
    association list List (String, V); get with default, membership and
    item assignment follow the dict semantics (assignment overwrites in
    place, otherwise appends at the end);
  - Python list.index is modelled by pyListIndex, returning none exactly
    when list.index would raise ValueError;
  - exceptions are modelled by Except PyError;
  - the effectful top level (train) is modelled as a function from the
    ambient environment to the ordered trace of the observable actions it
    performs, and the liveness loop as a function of the sequence of probe
    outcomes it observes.
-/

/-- A Python scalar value, as stored in the hyperparameter dict. -/
inductive PyVal where
  | int (n : Int)
  | str (s : String)
  deriving DecidableEq, Repr

/-- The Python exception classes that the embedded code can raise.
valueError is raised by list.index on a missing element, keyError by dict
indexing on a missing key, indexError by list indexing out of range.
configurationError is Modelled from the spec: the spec error taxonomy
names a ConfigurationError (defined in the external container_support
package, not present under src); it is included here only so that the
stated error-class claims can be expressed. -/
inductive PyError where
  | valueError
  | keyError
  | indexError
  | configurationError
  deriving DecidableEq, Repr

/-- Python d.get(k, default) restricted to the first binding of k
(association lists built by dictSet never hold duplicate keys). -/
def dictFind {V : Type} (k : String) : List (String × V) → Option V
  | [] => Option.none
  | kv :: d => if kv.1 = k then some kv.2 else dictFind k d

/-- Python k in d. -/
def dictContains {V : Type} (d : List (String × V)) (k : String) : Bool :=
  (dictFind k d).isSome

/-- Python d.get(k, dflt). -/
def dictGet {V : Type} (d : List (String × V)) (k : String) (dflt : V) : V :=
  match dictFind k d with
  | some v => v
  | Option.none => dflt

/-- Python d[k] = v: overwrites the binding in place when the key is
present, otherwise appends the new binding (insertion order). -/
def dictSet {V : Type} (d : List (String × V)) (k : String) (v : V) : List (String × V) :=
  if dictContains d k then d.map (fun kv => if kv.1 = k then (k, v) else kv)
  else d ++ [(k, v)]

/-- Python l.index(x): index of the first occurrence, none when list.index
would raise ValueError. -/
def pyListIndex (x : String) : List String → Option Nat
  | [] => Option.none
  | h :: l => if h = x then some 0 else (pyListIndex x l).map (fun i => i + 1)

/-- Python s[:-n]: all characters of s but the last n. -/
def pySliceStop (s : String) (n : Nat) : String :=
  String.mk (s.data.take (s.data.length - n))

/-- The capability surface of the customer script module that
_build_estimator probes with hasattr (trainer.py lines 192-209). -/
structure Script where
  has_estimator_fn : Bool
  has_keras_model_fn : Bool
  has_model_fn : Bool
  deriving DecidableEq, Repr

/-- The task record of TF_CONFIG (trainer.py lines 96-99). -/
structure TfTask where
  index : Nat
  type : String
  deriving DecidableEq, Repr

/-- The cluster record of TF_CONFIG (trainer.py lines 92-107).
worker and ps are Option because the Python code inserts those dict keys
only conditionally: a value of none means the key is absent. -/
structure TfCluster where
  master : List String
  worker : Option (List String)
  ps : Option (List String)
  deriving DecidableEq, Repr

/-- The TF_CONFIG dictionary built by Trainer.build_tf_config. -/
structure TfConfig where
  cluster : TfCluster
  task : TfTask
  environment : String
  deriving DecidableEq, Repr

/-- The state of a Trainer object (trainer.py lines 46-59).
ouput_path keeps the spelling of the source attribute. -/
structure Trainer where
  customer_script : Script
  current_host : String
  hosts : List String
  train_steps : PyVal
  eval_steps : PyVal
  training_path : PyVal
  model_path : PyVal
  ouput_path : PyVal
  task_type : Option String
  customer_params : List (String × PyVal)
  deriving DecidableEq, Repr

/-- Trainer.__init__ (trainer.py lines 15-59). The two dict assignments on
lines 56-57 write default values into the customer_params dict that the
caller passed in; the resulting list is the (aliased) state of that dict
after construction. The S3 filesystem configuration on lines 61-62 is an
environment-variable side effect with no bearing on the Trainer state and
is not modelled. -/
def Trainer.init (customer_script : Script) (current_host : String) (hosts : List String)
    (train_steps eval_steps : PyVal) (training_path model_path output_path : PyVal)
    (min_eval_frequency : PyVal) (customer_params : List (String × PyVal))
    (save_checkpoints_secs : PyVal) : Trainer :=
  let p1 := dictSet customer_params "min_eval_frequency"
    (dictGet customer_params "min_eval_frequency" min_eval_frequency)
  let p2 := dictSet p1 "save_checkpoints_secs"
    (dictGet p1 "save_checkpoints_secs" save_checkpoints_secs)
  { customer_script := customer_script
    current_host := current_host
    hosts := hosts
    train_steps := train_steps
    eval_steps := eval_steps
    training_path := training_path
    model_path := model_path
    ouput_path := output_path
    task_type := Option.none
    customer_params := p2 }

/-- Trainer._get_task_type (trainer.py lines 64-67). -/
def Trainer._get_task_type (t : Trainer) (masters : List String) : String :=
  if t.current_host ∈ masters then "master" else "worker"

/-- build_host_addresses (trainer.py lines 89-90):
formats every host as host:port. -/
def build_host_addresses (my_hosts : List String) (port : String) : List String :=
  my_hosts.map (fun host => host ++ ":" ++ port)

/-- Trainer.build_tf_config (trainer.py lines 69-109). Mirrors the source
statement by statement: masters and workers are slices of hosts, ps is the
whole host list when there is more than one host and None otherwise, the
task id is looked up with list.index in the role list selected from
task_map (raising ValueError when current_host is absent), and the ps and
worker keys of the cluster dict are inserted only under the same
conditions as in the source (Python truthiness of ps, positive worker
count). The mutation of self.task_type on line 80 is returned as the
updated Trainer. -/
def Trainer.build_tf_config (t : Trainer) : Except PyError (Trainer × TfConfig) :=
  let masters := t.hosts.take 1
  let workers := t.hosts.drop 1
  let ps : Option (List String) := if 1 < t.hosts.length then some t.hosts else Option.none
  let task_type := t._get_task_type masters
  let task_map : List (String × List String) :=
    [("master", masters), ("worker", workers)] ++
      (match ps with
       | some l => if l.isEmpty then [] else [("ps", l)]
       | Option.none => [])
  match dictFind task_type task_map with
  | Option.none => Except.error PyError.keyError
  | some role_hosts =>
    match pyListIndex t.current_host role_hosts with
    | Option.none => Except.error PyError.valueError
    | some task_id =>
      Except.ok ({ t with task_type := some task_type },
        { cluster :=
            { master := build_host_addresses masters "2222"
              worker := if 0 < workers.length then some (build_host_addresses workers "2222")
                        else Option.none
              ps := match ps with
                    | some l => if l.isEmpty then Option.none
                                else some (build_host_addresses l "2223")
                    | Option.none => Option.none }
          task := { index := task_id, type := task_type }
          environment := "cloud" })

/-- Which of the three model-construction branches
Trainer._build_estimator takes (trainer.py lines 192-209): the estimator
object itself is opaque, only the dispatch is modelled. -/
inductive EstimatorKind where
  | fromEstimatorFn
  | fromKerasModelFn
  | fromModelFn
  deriving DecidableEq, Repr

/-- The hasattr dispatch of Trainer._build_estimator (trainer.py lines
192-209): estimator_fn when present, else keras_model_fn when present,
else the model_fn branch unconditionally. -/
def Trainer._build_estimator (t : Trainer) : EstimatorKind :=
  if t.customer_script.has_estimator_fn then EstimatorKind.fromEstimatorFn
  else if t.customer_script.has_keras_model_fn then EstimatorKind.fromKerasModelFn
  else EstimatorKind.fromModelFn

/-- How many of the three model-construction capabilities the customer
script supplies. -/
def count_capabilities (s : Script) : Nat :=
  (if s.has_estimator_fn then 1 else 0) +
  (if s.has_keras_model_fn then 1 else 0) +
  (if s.has_model_fn then 1 else 0)

/-- _get_master (train.py lines 71-72):
tf_config.cluster.master[0][:-5]. Indexing the empty list would raise
IndexError. -/
def _get_master (tf_config : TfConfig) : Except PyError String :=
  match tf_config.cluster.master with
  | [] => Except.error PyError.indexError
  | m :: _ => Except.ok (pySliceStop m 5)

/-- One observable action of _wait_until_master_is_down (train.py lines
18-26): a curl probe of the master with its outcome, or the fixed
time.sleep(10). -/
inductive ProbeEvent where
  | probe (ok : Bool)
  | sleep10
  deriving DecidableEq, Repr

/-- _wait_until_master_is_down (train.py lines 18-26), as a function of
the sequence of probe outcomes the loop observes (true: curl exits 0;
false: subprocess.check_call raises CalledProcessError). Returns the
ordered trace of its actions when the loop returns within the given
outcomes, and none when it exhausts them still running. -/
def _wait_until_master_is_down : List Bool → Option (List ProbeEvent)
  | [] => Option.none
  | ok :: rest =>
    if ok then
      match _wait_until_master_is_down rest with
      | some tr => some (ProbeEvent.probe true :: ProbeEvent.sleep10 :: tr)
      | Option.none => Option.none
    else some [ProbeEvent.probe false]

/-- The trace produced by the liveness loop on k successful probes
followed by one failed probe. -/
def monitorEvents : Nat → List ProbeEvent
  | 0 => [ProbeEvent.probe false]
  | k + 1 => ProbeEvent.probe true :: ProbeEvent.sleep10 :: monitorEvents k

/-- One observable action of the top level train function (train.py lines
75-122). -/
inductive TrainEvent where
  | buildTfConfig
  | startPsServer
  | publishTfConfig
  | runTraining
  | exportModel
  | waitForMaster
  | hardExit
  deriving DecidableEq, Repr

/-- The inputs train reads from its environment (train.py lines 76-100),
plus two fault-injection flags selecting the exceptional paths: whether
run.train_and_log_exceptions raises and whether serve.export_saved_model
raises. -/
structure TrainingEnvironment where
  current_host : String
  hosts : List String
  hyperparameters : List (String × PyVal)
  model_dir : String
  training_dir : String
  output_dir : String
  customer_script : Script
  training_raises : Bool
  export_raises : Bool
  deriving DecidableEq, Repr

/-- The train function (train.py lines 75-122) as the ordered trace of its
observable actions: building the TF config, starting the parameter-server
thread (only when there is more than one host, line 105), publishing
TF_CONFIG into the process environment (line 108), then the try block
(training; model export only on the master when the checkpoint dir differs
from the model dir, line 114; waiting for the master only on non-master
nodes, line 117, modelled as completing) and finally the unconditional
os._exit(0) of the finally block (line 122). When build_tf_config raises,
the exception propagates before the try block is entered and no trace is
produced. An exception from training or export is swallowed by the forced
exit, so those paths still yield a trace ending in hardExit. -/
def train_exec (env : TrainingEnvironment) : Except PyError (List TrainEvent) :=
  let checkpoint_dir := dictGet env.hyperparameters "checkpoint_path" (PyVal.str env.model_dir)
  let train_steps := dictGet env.hyperparameters "training_steps" (PyVal.int 1000)
  let eval_steps := dictGet env.hyperparameters "evaluation_steps" (PyVal.int 100)
  let train_wrapper := Trainer.init env.customer_script env.current_host env.hosts
    train_steps eval_steps (PyVal.str env.training_dir) checkpoint_dir
    (PyVal.str env.output_dir) (PyVal.int 1000) env.hyperparameters (PyVal.int 300)
  match train_wrapper.build_tf_config with
  | Except.error e => Except.error e
  | Except.ok (tw, _cfg) =>
    let pre : List TrainEvent :=
      [TrainEvent.buildTfConfig] ++
      (if 1 < env.hosts.length then [TrainEvent.startPsServer] else []) ++
      [TrainEvent.publishTfConfig]
    let waitPart : List TrainEvent :=
      if tw.task_type ≠ some "master" then [TrainEvent.waitForMaster] else []
    let body : List TrainEvent :=
      if env.training_raises then [TrainEvent.runTraining]
      else if checkpoint_dir ≠ PyVal.str env.model_dir ∧ tw.task_type = some "master" then
        (if env.export_raises then [TrainEvent.runTraining, TrainEvent.exportModel]
         else [TrainEvent.runTraining, TrainEvent.exportModel] ++ waitPart)
      else [TrainEvent.runTraining] ++ waitPart
  Except.ok (pre ++ body ++ [TrainEvent.hardExit])

/-- A customer script supplying only model_fn. -/
def defaultScript : Script :=
  { has_estimator_fn := false, has_keras_model_fn := false, has_model_fn := true }

/-- A Trainer built as train.py builds it, with fixed incidental
configuration, for concrete instantiations. -/
def mkTrainer (hosts : List String) (current_host : String) : Trainer :=
  Trainer.init defaultScript current_host hosts (PyVal.int 1000) (PyVal.int 100)
    (PyVal.str "training") (PyVal.str "model") (PyVal.str "output")
    (PyVal.int 1000) [] (PyVal.int 300)

/-- A Trainer with a chosen customer script, for concrete instantiations. -/
def mkTrainerWith (s : Script) : Trainer :=
  Trainer.init s "a" ["a"] (PyVal.int 1000) (PyVal.int 100)
    (PyVal.str "training") (PyVal.str "model") (PyVal.str "output")
    (PyVal.int 1000) [] (PyVal.int 300)

/-- A single-host environment on the master. -/
def envSingle : TrainingEnvironment :=
  { current_host := "a", hosts := ["a"], hyperparameters := [], model_dir := "m"
    training_dir := "t", output_dir := "o", customer_script := defaultScript
    training_raises := false, export_raises := false }

/-- A two-host environment on the master. -/
def envMulti : TrainingEnvironment :=
  { current_host := "a", hosts := ["a", "b"], hyperparameters := [], model_dir := "m"
    training_dir := "t", output_dir := "o", customer_script := defaultScript
    training_raises := false, export_raises := false }

/-- The TF_CONFIG value built on the single-host cluster, for concrete
instantiations. -/
def cfgSingle : TfConfig :=
  { cluster := { master := ["a:2222"], worker := Option.none, ps := Option.none }
    task := { index := 0, type := "master" }
    environment := "cloud" }

/-- A hyperparameter dict that already binds both defaulted keys. -/
def pBoth : List (String × PyVal) :=
  [("min_eval_frequency", PyVal.int 5), ("save_checkpoints_secs", PyVal.int 7)]


theorem str_data_append (s t : String) : (s ++ t).data = s.data ++ t.data := rfl

theorem str_append_assoc (s t u : String) : s ++ t ++ u = s ++ (t ++ u) := by
  cases s with
  | mk a => cases t with
    | mk b => cases u with
      | mk c =>
        show String.mk ((a ++ b) ++ c) = String.mk (a ++ (b ++ c))
        rw [List.append_assoc]

theorem append_port_2222 (h : String) : h ++ ":" ++ "2222" = h ++ ":2222" := by
  rw [str_append_assoc]; rfl

theorem append_port_2223 (h : String) : h ++ ":" ++ "2223" = h ++ ":2223" := by
  rw [str_append_assoc]; rfl

theorem pySliceStop_append_port (a : String) : pySliceStop (a ++ ":2222") 5 = a := by
  show String.mk (((a ++ ":2222").data).take ((a ++ ":2222").data.length - 5)) = a
  rw [str_data_append]
  have h5 : (":2222" : String).data.length = 5 := rfl
  rw [List.length_append, h5, Nat.add_sub_cancel]
  rw [List.take_left]

theorem pyListIndex_eq_none (x : String) (l : List String) (h : x ∉ l) :
    pyListIndex x l = Option.none := by
  induction l with
  | nil => rfl
  | cons a as ih =>
    have hxa : a ≠ x := fun he => h (he ▸ List.mem_cons_self a as)
    have hxs : x ∉ as := fun hm => h (List.mem_cons_of_mem a hm)
    simp [pyListIndex, hxa, ih hxs]

theorem pyListIndex_isSome (x : String) (l : List String) (h : x ∈ l) :
    (pyListIndex x l).isSome = true := by
  induction l with
  | nil => cases h
  | cons a as ih =>
    by_cases hax : a = x
    · simp [pyListIndex, hax]
    · have hx : x ∈ as := by
        cases List.mem_cons.mp h with
        | inl he => exact absurd he.symm hax
        | inr hm => exact hm
      simp [pyListIndex, hax]
      cases hp : pyListIndex x as with
      | none => rw [hp] at ih; exact absurd (ih hx) (by simp)
      | some i => simp

theorem pyListIndex_get (x : String) (l : List String) (i : Nat)
    (h : pyListIndex x l = some i) : l.get? i = some x := by
  induction l generalizing i with
  | nil => cases h
  | cons a as ih =>
    by_cases hax : a = x
    · simp [pyListIndex, hax] at h
      subst h
      simp [hax]
    · rw [pyListIndex, if_neg hax] at h
      cases hp : pyListIndex x as with
      | none => rw [hp] at h; cases h
      | some j =>
        rw [hp] at h
        simp at h
        subst h
        simpa using ih j hp

theorem build_tf_config_master (t : Trainer) (a : String) (rest : List String)
    (hH : t.hosts = a :: rest) (hcur : t.current_host = a) :
    t.build_tf_config = Except.ok ({ t with task_type := some "master" },
      { cluster :=
          { master := [a ++ ":" ++ "2222"]
            worker := if rest.isEmpty then Option.none
                      else some (build_host_addresses rest "2222")
            ps := if rest.isEmpty then Option.none
                  else some (build_host_addresses (a :: rest) "2223") }
        task := { index := 0, type := "master" }
        environment := "cloud" }) := by
  cases rest with
  | nil =>
    simp [Trainer.build_tf_config, Trainer._get_task_type, hH, hcur, dictFind,
      pyListIndex, build_host_addresses]
  | cons b l =>
    simp [Trainer.build_tf_config, Trainer._get_task_type, hH, hcur, dictFind,
      pyListIndex, build_host_addresses]

theorem build_tf_config_worker (t : Trainer) (a : String) (rest : List String) (i : Nat)
    (hH : t.hosts = a :: rest) (hne : t.current_host ≠ a)
    (hi : pyListIndex t.current_host rest = some i) :
    t.build_tf_config = Except.ok ({ t with task_type := some "worker" },
      { cluster :=
          { master := [a ++ ":" ++ "2222"]
            worker := if rest.isEmpty then Option.none
                      else some (build_host_addresses rest "2222")
            ps := if rest.isEmpty then Option.none
                  else some (build_host_addresses (a :: rest) "2223") }
        task := { index := i, type := "worker" }
        environment := "cloud" }) := by
  have hne' : a ≠ t.current_host := fun he => hne he.symm
  cases rest with
  | nil => cases hi
  | cons b l =>
    simp [Trainer.build_tf_config, Trainer._get_task_type, hH, hne, hne', dictFind,
      build_host_addresses, hi]

theorem build_tf_config_absent (t : Trainer) (h : t.current_host ∉ t.hosts) :
    t.build_tf_config = Except.error PyError.valueError := by
  have hm : t.current_host ∉ t.hosts.take 1 := fun hx => h (List.take_subset 1 t.hosts hx)
  have hw : t.current_host ∉ t.hosts.drop 1 := fun hx => h (List.drop_subset 1 t.hosts hx)
  have hidx : pyListIndex t.current_host t.hosts.tail = Option.none := by
    rw [← List.drop_one]
    exact pyListIndex_eq_none _ _ hw
  simp [Trainer.build_tf_config, Trainer._get_task_type, hm, dictFind, hidx]

/-- C1: for every host list H with more than one host and every
current_host in H, build_tf_config yields cluster.master equal to the
singleton [H[0] ++ ":2222"], cluster.worker equal to the tail hosts each
suffixed ":2222" in order, and cluster.ps equal to all hosts each suffixed
":2223" in order; with a single host the ps key is absent. The equation
asserts at once that the call succeeds and what the cluster record is. -/
theorem build_tf_config_cluster_layout (t : Trainer) (a : String) (rest : List String)
    (hH : t.hosts = a :: rest) (hmem : t.current_host ∈ a :: rest) :
    t.build_tf_config.map (fun p => p.2.cluster) =
      Except.ok { master := [a ++ ":2222"]
                  worker := if rest.isEmpty then Option.none
                            else some (rest.map (fun h => h ++ ":2222"))
                  ps := if rest.isEmpty then Option.none
                        else some ((a :: rest).map (fun h => h ++ ":2223")) } := by
  by_cases hca : t.current_host = a
  · rw [build_tf_config_master t a rest hH hca]
    simp [Except.map, build_host_addresses, append_port_2222, append_port_2223]
  · have hrest : t.current_host ∈ rest := by
      cases List.mem_cons.mp hmem with
      | inl he => exact absurd he hca
      | inr hm => exact hm
    obtain ⟨i, hi⟩ := Option.isSome_iff_exists.mp (pyListIndex_isSome _ _ hrest)
    rw [build_tf_config_worker t a rest i hH hca hi]
    simp [Except.map, build_host_addresses, append_port_2222, append_port_2223]

/-- Witness for C1 at hosts ["a", "b"], current host "b". -/
theorem build_tf_config_cluster_layout_witness :
    (mkTrainer ["a", "b"] "b").build_tf_config.map (fun p => p.2.cluster) =
      Except.ok { master := ["a:2222"], worker := some ["b:2222"]
                  ps := some ["a:2223", "b:2223"] } := by
  have h := build_tf_config_cluster_layout (mkTrainer ["a", "b"] "b") "a" ["b"]
    (by decide) (by decide)
  simpa using h

/-- C3: for every non-empty host list and every current_host in it,
build_tf_config succeeds and assigns exactly one primary role: type is
master exactly when current_host is the first host (with index 0, the
position in the master list), and worker otherwise, with index the
position of the first occurrence of current_host in the worker list
(hosts[1:], never the ps list): the returned index points at current_host
inside that worker list. -/
theorem task_assignment_role_and_index (t : Trainer) (a : String) (rest : List String)
    (hH : t.hosts = a :: rest) (hmem : t.current_host ∈ a :: rest) :
    (t.current_host = a →
        t.build_tf_config.map (fun p => p.2.task) =
          Except.ok { index := 0, type := "master" }) ∧
    (t.current_host ≠ a →
        (pyListIndex t.current_host rest).isSome = true ∧
        (∀ i, pyListIndex t.current_host rest = some i →
          t.build_tf_config.map (fun p => p.2.task) =
            Except.ok { index := i, type := "worker" } ∧
          rest.get? i = some t.current_host)) := by
  constructor
  · intro hca
    rw [build_tf_config_master t a rest hH hca]
    simp [Except.map]
  · intro hca
    have hrest : t.current_host ∈ rest := by
      cases List.mem_cons.mp hmem with
      | inl he => exact absurd he hca
      | inr hm => exact hm
    refine ⟨pyListIndex_isSome _ _ hrest, ?_⟩
    intro i hi
    rw [build_tf_config_worker t a rest i hH hca hi]
    exact ⟨by simp [Except.map], pyListIndex_get _ _ _ hi⟩

/-- Witness for C3: the master case at hosts ["a", "b"] on "a" and the
worker case at hosts ["a", "b"] on "b". -/
theorem task_assignment_role_and_index_witness :
    (mkTrainer ["a", "b"] "a").build_tf_config.map (fun p => p.2.task) =
      Except.ok { index := 0, type := "master" } ∧
    (mkTrainer ["a", "b"] "b").build_tf_config.map (fun p => p.2.task) =
      Except.ok { index := 0, type := "worker" } := by
  constructor
  · exact (task_assignment_role_and_index (mkTrainer ["a", "b"] "a") "a" ["b"]
      (by decide) (by decide)).1 (by decide)
  · exact ((task_assignment_role_and_index (mkTrainer ["a", "b"] "b") "a" ["b"]
      (by decide) (by decide)).2 (by decide)).2 0 (by decide) |>.1

/-- C10: for every non-empty host list and current_host in it, reading the
master back out of the built topology with _get_master recovers exactly
hosts[0]: the five characters stripped by the slice are exactly the
":2222" suffix appended by build_host_addresses. -/
theorem get_master_roundtrip (t : Trainer) (a : String) (rest : List String)
    (hH : t.hosts = a :: rest) (hmem : t.current_host ∈ a :: rest) :
    t.build_tf_config.map (fun p => _get_master p.2) = Except.ok (Except.ok a) := by
  by_cases hca : t.current_host = a
  · rw [build_tf_config_master t a rest hH hca]
    simp [Except.map, _get_master, build_host_addresses, append_port_2222,
      pySliceStop_append_port]
  · have hrest : t.current_host ∈ rest := by
      cases List.mem_cons.mp hmem with
      | inl he => exact absurd he hca
      | inr hm => exact hm
    obtain ⟨i, hi⟩ := Option.isSome_iff_exists.mp (pyListIndex_isSome _ _ hrest)
    rw [build_tf_config_worker t a rest i hH hca hi]
    simp [Except.map, _get_master, build_host_addresses, append_port_2222,
      pySliceStop_append_port]

/-- Witness for C10 at hosts ["a", "b"], current host "b". -/
theorem get_master_roundtrip_witness :
    (mkTrainer ["a", "b"] "b").build_tf_config.map (fun p => _get_master p.2) =
      Except.ok (Except.ok "a") :=
  get_master_roundtrip (mkTrainer ["a", "b"] "b") "a" ["b"] (by decide) (by decide)

/-- C2 counterexample: with hosts ["a"] and current host "b" (absent),
build_tf_config raises ValueError (from list.index on the worker list),
not the ConfigurationError the claim names. -/
theorem absent_host_error_class_cex :
    (mkTrainer ["a"] "b").build_tf_config = Except.error PyError.valueError ∧
    (mkTrainer ["a"] "b").build_tf_config ≠ Except.error PyError.configurationError := by
  constructor
  · rfl
  · intro h
    cases h

/-- C2 amended: for every host list and every current host absent from
it, build_tf_config fails, but the exception is the ValueError raised by
list.index on the worker role list; no membership check raising
ConfigurationError exists in build_tf_config. -/
theorem absent_host_raises_value_error (t : Trainer) (h : t.current_host ∉ t.hosts) :
    t.build_tf_config = Except.error PyError.valueError :=
  build_tf_config_absent t h

/-- Witness for the amended C2 at hosts ["a"], current host "b". -/
theorem absent_host_raises_value_error_witness :
    (mkTrainer ["a"] "b").build_tf_config = Except.error PyError.valueError :=
  absent_host_raises_value_error (mkTrainer ["a"] "b") (by decide)

/-- C6 counterexample: on the single-host cluster hosts = ["a"] with
current host "a", the built cluster has no worker entry at all (the
Python code only inserts the worker key when the worker list is
non-empty), so the worker field is not the empty sequence the claim
states. -/
theorem single_host_worker_key_cex :
    (mkTrainer ["a"] "a").build_tf_config.map (fun p => p.2.cluster.worker) =
      Except.ok Option.none ∧
    (mkTrainer ["a"] "a").build_tf_config.map (fun p => p.2.cluster.worker) ≠
      Except.ok (some []) := by
  constructor
  · rfl
  · intro h
    rw [show (mkTrainer ["a"] "a").build_tf_config.map (fun p => p.2.cluster.worker) =
      Except.ok Option.none from rfl] at h
    cases h

/-- C6 amended: on the single-host cluster hosts = ["a"] with current
host "a", the built topology has task = {index 0, type master}, no ps
entry, and no worker entry (the worker key is omitted rather than bound
to an empty sequence). -/
theorem single_host_topology :
    (mkTrainer ["a"] "a").build_tf_config.map (fun p => p.2) =
      Except.ok { cluster := { master := ["a:2222"], worker := Option.none, ps := Option.none }
                  task := { index := 0, type := "master" }
                  environment := "cloud" } := rfl

/-- C4: for every probe-outcome sequence of k successes followed by a
failure (whatever outcomes would have followed), the liveness monitor
returns with the trace that probes k+1 times, sleeps the fixed interval
exactly once after each of the k successful probes (so exactly k sleeps),
and ends immediately at the first failed probe: the failed probe is the
last action, nothing (in particular no probe) follows it, and the
outcomes after the failure are never consumed. -/
theorem liveness_monitor_trace (k : Nat) (extra : List Bool) :
    _wait_until_master_is_down (List.replicate k true ++ false :: extra) =
      some (monitorEvents k) ∧
    (monitorEvents k).count ProbeEvent.sleep10 = k ∧
    (monitorEvents k).count (ProbeEvent.probe true) = k ∧
    (monitorEvents k).count (ProbeEvent.probe false) = 1 ∧
    (monitorEvents k).getLast? = some (ProbeEvent.probe false) := by
  induction k with
  | zero =>
    refine ⟨rfl, ?_, ?_, ?_, rfl⟩ <;> rfl
  | succ n ih =>
    obtain ⟨htr, hs, hpt, hpf, hlast⟩ := ih
    refine ⟨?_, ?_, ?_, ?_, ?_⟩
    · rw [List.replicate_succ, List.cons_append]
      show (if true then
        match _wait_until_master_is_down (List.replicate n true ++ false :: extra) with
        | some tr => some (ProbeEvent.probe true :: ProbeEvent.sleep10 :: tr)
        | Option.none => Option.none
        else some [ProbeEvent.probe false]) = some (monitorEvents (n + 1))
      rw [if_pos rfl, htr]
      rfl
    · show (ProbeEvent.probe true :: ProbeEvent.sleep10 :: monitorEvents n).count
        ProbeEvent.sleep10 = n + 1
      rw [List.count_cons, List.count_cons, hs]
      rfl
    · show (ProbeEvent.probe true :: ProbeEvent.sleep10 :: monitorEvents n).count
        (ProbeEvent.probe true) = n + 1
      rw [List.count_cons, List.count_cons, hpt]
      rfl
    · show (ProbeEvent.probe true :: ProbeEvent.sleep10 :: monitorEvents n).count
        (ProbeEvent.probe false) = 1
      rw [List.count_cons, List.count_cons, hpf]
      rfl
    · show (ProbeEvent.probe true :: ProbeEvent.sleep10 :: monitorEvents n).getLast? =
        some (ProbeEvent.probe false)
      rw [List.getLast?_cons_cons]
      cases hm : monitorEvents n with
      | nil => rw [hm] at hlast; cases hlast
      | cons e es =>
        rw [hm] at hlast
        rw [List.getLast?_cons_cons, hlast]

/-- C8: _build_estimator dispatches on the customer script capabilities in
the fixed priority order estimator_fn, keras_model_fn, model_fn: when
estimator_fn is present it wins regardless of the others, otherwise
keras_model_fn when present, otherwise the model_fn branch; and whenever
exactly one of the three capabilities is supplied, the branch taken is
exactly the supplied one. -/
theorem estimator_dispatch_priority (t : Trainer) :
    (t.customer_script.has_estimator_fn = true →
        t._build_estimator = EstimatorKind.fromEstimatorFn) ∧
    (t.customer_script.has_estimator_fn = false →
      t.customer_script.has_keras_model_fn = true →
        t._build_estimator = EstimatorKind.fromKerasModelFn) ∧
    (t.customer_script.has_estimator_fn = false →
      t.customer_script.has_keras_model_fn = false →
        t._build_estimator = EstimatorKind.fromModelFn) ∧
    (count_capabilities t.customer_script = 1 →
        (t._build_estimator = EstimatorKind.fromEstimatorFn ↔
          t.customer_script.has_estimator_fn = true) ∧
        (t._build_estimator = EstimatorKind.fromKerasModelFn ↔
          t.customer_script.has_keras_model_fn = true) ∧
        (t._build_estimator = EstimatorKind.fromModelFn ↔
          t.customer_script.has_model_fn = true)) := by
  cases he : t.customer_script.has_estimator_fn <;>
    cases hk : t.customer_script.has_keras_model_fn <;>
      cases hm : t.customer_script.has_model_fn <;>
        simp [Trainer._build_estimator, count_capabilities, he, hk, hm]

/-- Witness for C8: each dispatch branch at a concrete script, plus the
exactly-one case selecting model_fn. -/
theorem estimator_dispatch_priority_witness :
    (mkTrainerWith ⟨true, true, true⟩)._build_estimator = EstimatorKind.fromEstimatorFn ∧
    (mkTrainerWith ⟨false, true, false⟩)._build_estimator = EstimatorKind.fromKerasModelFn ∧
    (mkTrainerWith ⟨false, false, true⟩)._build_estimator = EstimatorKind.fromModelFn := by
  refine ⟨(estimator_dispatch_priority _).1 rfl,
    (estimator_dispatch_priority _).2.1 rfl rfl, ?_⟩
  exact ((estimator_dispatch_priority (mkTrainerWith ⟨false, false, true⟩)).2.2.2
    rfl).2.2.mpr rfl

theorem map_set_of_not_mem {V : Type} (d : List (String × V)) (k : String) (v : V)
    (h : k ∉ d.map Prod.fst) :
    d.map (fun kv => if kv.1 = k then (k, v) else kv) = d := by
  induction d with
  | nil => rfl
  | cons kv rest ih =>
    have h1 : kv.1 ≠ k := fun he => h (by simp [he])
    have h2 : k ∉ rest.map Prod.fst := fun hm => h (by simp [hm])
    simp only [List.map_cons, if_neg h1, ih h2]

theorem dictSet_get_self {V : Type} (d : List (String × V)) (k : String) (dflt : V)
    (hnd : (d.map Prod.fst).Nodup) (hk : dictContains d k = true) :
    dictSet d k (dictGet d k dflt) = d := by
  induction d with
  | nil => simp [dictContains, dictFind] at hk
  | cons kv rest ih =>
    rw [List.map_cons, List.nodup_cons] at hnd
    by_cases h1 : kv.1 = k
    · have hget : dictGet (kv :: rest) k dflt = kv.2 := by simp [dictGet, dictFind, h1]
      have hnotin : k ∉ rest.map Prod.fst := h1 ▸ hnd.1
      rw [hget]
      simp only [dictSet, if_pos hk, List.map_cons, if_pos h1,
        map_set_of_not_mem rest k kv.2 hnotin]
      rw [← h1]
    · have hfind : dictFind k (kv :: rest) = dictFind k rest := by simp [dictFind, h1]
      have hget : dictGet (kv :: rest) k dflt = dictGet rest k dflt := by
        simp [dictGet, hfind]
      have hkrest : dictContains rest k = true := by
        rw [dictContains, ← hfind]; exact hk
      rw [hget]
      simp only [dictSet, if_pos hk, List.map_cons, if_neg h1]
      have hrest := ih hnd.2 hkrest
      simp only [dictSet, if_pos hkrest] at hrest
      rw [hrest]

/-- C9 counterexample: constructing a Trainer with the empty
customer-supplied hyperparameter dict leaves that (aliased) dict holding
the two default bindings written by the constructor, so construction does
modify the customer-supplied map. -/
theorem trainer_config_mutation_cex :
    (mkTrainer ["a"] "a").customer_params =
      [("min_eval_frequency", PyVal.int 1000), ("save_checkpoints_secs", PyVal.int 300)] ∧
    (mkTrainer ["a"] "a").customer_params ≠ ([] : List (String × PyVal)) := by
  constructor
  · rfl
  · intro h
    rw [show (mkTrainer ["a"] "a").customer_params =
      [("min_eval_frequency", PyVal.int 1000), ("save_checkpoints_secs", PyVal.int 300)]
      from rfl] at h
    cases h

/-- C9 amended: the configuration is mutated in exactly two places and
nowhere else. build_tf_config changes only the task_type field of the
Trainer (to the computed role), leaving train_steps, eval_steps, the
paths, customer_params, hosts, current_host and customer_script intact;
and Trainer.init writes only the defaulted keys min_eval_frequency and
save_checkpoints_secs into the customer-supplied dict, so when both keys
are already bound (keys are unique in a Python dict) the dict is left
unchanged by construction. -/
theorem trainer_mutation_frame :
    (∀ (t t2 : Trainer) (cfg : TfConfig), t.build_tf_config = Except.ok (t2, cfg) →
        t2 = { t with task_type := some (t._get_task_type (t.hosts.take 1)) }) ∧
    (∀ (s : Script) (ch : String) (hs : List String) (ts es tp mp op mef scs : PyVal)
        (p : List (String × PyVal)),
        (p.map Prod.fst).Nodup →
        dictContains p "min_eval_frequency" = true →
        dictContains p "save_checkpoints_secs" = true →
        (Trainer.init s ch hs ts es tp mp op mef p scs).customer_params = p) := by
  constructor
  · intro t t2 cfg h
    simp only [Trainer.build_tf_config] at h
    split at h
    · cases h
    · split at h
      · cases h
      · simp only [Except.ok.injEq, Prod.mk.injEq] at h
        exact h.1.symm
  · intro s ch hs ts es tp mp op mef scs p hnd h1 h2
    simp only [Trainer.init]
    rw [dictSet_get_self p "min_eval_frequency" mef hnd h1]
    rw [dictSet_get_self p "save_checkpoints_secs" scs hnd h2]

/-- Witness for the amended C9: the single-host build changes only
task_type, and construction over a dict already binding both defaulted
keys returns that dict unchanged. -/
theorem trainer_mutation_frame_witness :
    ({ mkTrainer ["a"] "a" with task_type := some "master" } : Trainer) =
      { mkTrainer ["a"] "a" with
          task_type := some ((mkTrainer ["a"] "a")._get_task_type
            ((mkTrainer ["a"] "a").hosts.take 1)) } ∧
    (Trainer.init defaultScript "a" ["a"] (PyVal.int 1000) (PyVal.int 100) (PyVal.str "t")
      (PyVal.str "m") (PyVal.str "o") (PyVal.int 1000) pBoth (PyVal.int 300)).customer_params =
      pBoth := by
  constructor
  · exact trainer_mutation_frame.1 (mkTrainer ["a"] "a")
      { mkTrainer ["a"] "a" with task_type := some "master" } cfgSingle (by rfl)
  · exact trainer_mutation_frame.2 defaultScript "a" ["a"] (PyVal.int 1000) (PyVal.int 100)
      (PyVal.str "t") (PyVal.str "m") (PyVal.str "o") (PyVal.int 1000) (PyVal.int 300) pBoth
      (by decide) (by decide) (by decide)

/-- C5: on every exit path of train that reaches the try block (training
succeeds, training raises, export raises, or the master-down wait
completes), the trace produced by the process ends with the forced hard
termination, performed exactly once; no path returns without it. -/
theorem train_always_hard_exits (env : TrainingEnvironment) (trace : List TrainEvent)
    (h : train_exec env = Except.ok trace) :
    trace.count TrainEvent.hardExit = 1 ∧
    trace.getLast? = some TrainEvent.hardExit := by
  simp only [train_exec] at h
  split at h
  · cases h
  · simp only [Except.ok.injEq] at h
    subst h
    constructor <;> (repeat' split) <;> decide

/-- Witness for C5 at the single-host environment: the trace is
build, publish, train, hard exit. -/
theorem train_always_hard_exits_witness :
    ([TrainEvent.buildTfConfig, TrainEvent.publishTfConfig, TrainEvent.runTraining,
      TrainEvent.hardExit].count TrainEvent.hardExit = 1) ∧
    ([TrainEvent.buildTfConfig, TrainEvent.publishTfConfig, TrainEvent.runTraining,
      TrainEvent.hardExit].getLast? = some TrainEvent.hardExit) :=
  train_always_hard_exits envSingle _ (by rfl)

/-- C7: on every node of a cluster with more than one host whose train
run reaches the try block, the trace begins with building the topology,
then starting the parameter-server thread, then publishing TF_CONFIG,
then starting training, and each of those three later actions occurs
exactly once in the whole trace, so the parameter-server start strictly
precedes the publication, which strictly precedes the training start;
with at most one host the parameter server is never started. -/
theorem ps_start_publish_train_order (env : TrainingEnvironment) (trace : List TrainEvent)
    (h : train_exec env = Except.ok trace) :
    (1 < env.hosts.length →
      trace.take 4 = [TrainEvent.buildTfConfig, TrainEvent.startPsServer,
        TrainEvent.publishTfConfig, TrainEvent.runTraining] ∧
      trace.count TrainEvent.startPsServer = 1 ∧
      trace.count TrainEvent.publishTfConfig = 1 ∧
      trace.count TrainEvent.runTraining = 1) ∧
    (¬ 1 < env.hosts.length → trace.count TrainEvent.startPsServer = 0) := by
  simp only [train_exec] at h
  split at h
  · cases h
  · simp only [Except.ok.injEq] at h
    subst h
    constructor
    · intro hm
      rw [if_pos hm]
      (repeat' split) <;> refine ⟨by decide, by decide, by decide, by decide⟩
    · intro hm
      rw [if_neg hm]
      (repeat' split) <;> decide

/-- Witness for C7 at the two-host environment on the master. -/
theorem ps_start_publish_train_order_witness :
    ([TrainEvent.buildTfConfig, TrainEvent.startPsServer, TrainEvent.publishTfConfig,
      TrainEvent.runTraining, TrainEvent.hardExit].take 4 =
      [TrainEvent.buildTfConfig, TrainEvent.startPsServer,
        TrainEvent.publishTfConfig, TrainEvent.runTraining]) ∧
    ([TrainEvent.buildTfConfig, TrainEvent.startPsServer, TrainEvent.publishTfConfig,
      TrainEvent.runTraining, TrainEvent.hardExit].count TrainEvent.startPsServer = 1) ∧
    ([TrainEvent.buildTfConfig, TrainEvent.startPsServer, TrainEvent.publishTfConfig,
      TrainEvent.runTraining, TrainEvent.hardExit].count TrainEvent.publishTfConfig = 1) ∧
    ([TrainEvent.buildTfConfig, TrainEvent.startPsServer, TrainEvent.publishTfConfig,
      TrainEvent.runTraining, TrainEvent.hardExit].count TrainEvent.runTraining = 1) :=
  (ps_start_publish_train_order envMulti _ (by rfl)).1 (by decide)
